import Mathlib

/-!
Verification of the file-system storage layer of goleveldb
(`leveldb/storage/file_storage.go`).

The Go code is shallowly embedded here:

* The file-name codec (`file.name`, `file.parse`) becomes the pure functions
  `fileName` and `fileParse`.  `fmt.Sprintf` zero padding is modelled by
  `pad6`/`decRepr`, and the `fmt.Sscanf` verbs `%d` and `%s` used by
  `file.parse` become `scanD` and `scanS` (a verb skips leading spaces, an
  unexpected newline aborts it, `%d` needs a non-empty digit run, `%s` a
  non-empty run of non-space characters; extra unconsumed input after the
  format is not an error, exactly as in `fmt.Sscanf`).
* The mutable `fileStorage` struct becomes the explicit state `StorageState`,
  and the directory it manages becomes an association list from file name to
  file content.  Each Go `file` object obtained from `GetFile` becomes an
  entry of `StorageState.files`; operations address a file object by its
  index in that list (the Go pointer identity).
* Fallible operations return `Except Err` paired with the post state; the
  `panic` in `file.name` is modelled by `Option.none`.
-/

/-- File kinds.  The enumeration (`TypeJournal`, `TypeManifest`, `TypeTable`
plus the unrecognized rest) lives in `storage.go`, outside the embedded file;
the spec lists the kinds as Journal, Table, Manifest and Other. -/
inductive FileType where
  | journal
  | table
  | manifest
  | other
deriving DecidableEq, Repr

/-- Error values returned by the storage operations (`ErrClosed`,
`ErrLocked`, `ErrInvalidFile`, `errFileOpen`, the "cannot close" error,
the "invalid CURRENT file" error, `os` errors). -/
inductive Err where
  | closed
  | locked
  | invalidFile
  /-- `errFileOpen`: the same Go error value reports a double open and a
  removal of an open file. -/
  | fileOpenErr
  /-- `cannot close, N files still open` -/
  | filesStillOpen
  /-- `invalid CURRENT file` -/
  | corrupt
  /-- missing `CURRENT` file (`os.ErrNotExist` unwrapped from the path error) -/
  | notFound
  /-- any other operating-system failure -/
  | ioError
  /-- modelling artifact: a file-object index out of range (has no Go
  counterpart, a Go pointer always refers to an object) -/
  | badRef
deriving DecidableEq, Repr

/-! ### Decimal digits -/

/-- The character for a decimal digit, `byte(u%10) + '0'` in `itoa`. -/
def digitCh : Nat → Char
  | 0 => '0'
  | 1 => '1'
  | 2 => '2'
  | 3 => '3'
  | 4 => '4'
  | 5 => '5'
  | 6 => '6'
  | 7 => '7'
  | 8 => '8'
  | 9 => '9'
  | _ => '*'

/-- Little-endian decimal digits of `n`, with explicit fuel so that the
recursion is structural (`fuel = n` is always enough). -/
def toDigitsRev (fuel n : Nat) : List Nat :=
  match fuel with
  | 0 => []
  | f + 1 => if n = 0 then [] else n % 10 :: toDigitsRev f (n / 10)

/-- Little-endian decimal digits of `n` (empty for `0`). -/
def decLE (n : Nat) : List Nat := toDigitsRev n n

/-- The decimal digit characters of `n`, most significant first; empty for
`0` (the shape `itoa`'s loop produces before padding). -/
def decDigits (n : Nat) : List Char := ((decLE n).map digitCh).reverse

/-- Decimal representation of `n` as printed by `%d` (so `0` prints `"0"`). -/
def decRepr (n : Nat) : List Char := if n = 0 then ['0'] else decDigits n

/-- `%d` as a string. -/
def natStr (n : Nat) : String := String.mk (decRepr n)

/-- `%06d`: the decimal representation left-padded with zeros to at least
six characters, never truncated. -/
def pad6 (n : Nat) : List Char :=
  List.replicate (6 - (decRepr n).length) '0' ++ decRepr n

/-- `itoa(buf, i, wid)` from the source: at least `wid` digits, zero padded,
with the special case `i == 0 && wid <= 1` producing `"0"`.  The reverse
digit-assembly loop emits `max wid (digit count of i)` characters: the
digits of `i` right-aligned under left zero padding, which is what this
closed form builds. -/
def itoa (i wid : Nat) : List Char :=
  if i = 0 && wid ≤ 1 then ['0']
  else List.replicate (wid - (decDigits i).length) '0' ++ decDigits i

/-! ### `file.name` (the encoder) -/

/-- `file.name()`: `MANIFEST-%06d`, `%06d.log`, `%06d.sst`; the `default`
branch of the switch is `panic("invalid file type")`, modelled by `none`
(there is no recoverable error return). -/
def fileName : FileType → Nat → Option String
  | FileType.manifest, n => some (String.mk ("MANIFEST-".toList ++ pad6 n))
  | FileType.journal, n => some (String.mk (pad6 n ++ ".log".toList))
  | FileType.table, n => some (String.mk (pad6 n ++ ".sst".toList))
  | FileType.other, _ => none

/-! ### `fmt.Sscanf` verbs used by `file.parse` -/

/-- Space characters skipped by a scanning verb (newline is not one of them
for `Sscanf`). -/
def isSp (c : Char) : Bool := c.toNat = 32 || c.toNat = 9

/-- ASCII decimal digit. -/
def isDigitCh (c : Char) : Bool := 48 ≤ c.toNat && c.toNat ≤ 57

/-- Numeric value of a digit string, most significant digit first. -/
def digitsVal (ds : List Char) : Nat :=
  ds.foldl (fun a c => a * 10 + (c.toNat - 48)) 0

/-- The `%d` verb on a `uint64` argument: skip spaces, then consume a
non-empty run of digits.  An empty run covers all of `Sscanf`'s failure
modes here: end of input, the unexpected-newline error of `SkipSpace`
(newline is not a digit), and a non-numeric character. -/
def scanD (l : List Char) : Option (Nat × List Char) :=
  let l1 := l.dropWhile isSp
  let ds := l1.takeWhile isDigitCh
  if ds = [] then none
  else some (digitsVal ds, l1.drop ds.length)

/-- The `%s` verb: skip spaces, then consume a non-empty run of non-space,
non-newline characters.  An empty run again covers end of input and the
unexpected-newline error. -/
def scanS (l : List Char) : Option (List Char × List Char) :=
  let l1 := l.dropWhile isSp
  let tok := l1.takeWhile (fun d => !isSp d && d.toNat != 10)
  if tok = [] then none
  else some (tok, l1.drop tok.length)

/-- `fmt.Sscanf(name, "%d.%s", &num, &tail)` with `err == nil`: both verbs
must succeed and the literal `.` must match in between; input remaining
after `%s` is not an error. -/
def scanNumTail (l : List Char) : Option (Nat × String) :=
  (scanD l).bind (fun p =>
    if p.2.head? = some '.' then
      (scanS p.2.tail).map (fun q => (p.1, String.mk q.1))
    else none)

/-- The literal `MANIFEST-` of the second format string. -/
def litManifest : List Char → Option (List Char)
  | 'M' :: 'A' :: 'N' :: 'I' :: 'F' :: 'E' :: 'S' :: 'T' :: '-' :: r => some r
  | _ => none

/-- `fmt.Sscanf(name, "MANIFEST-%d%s", &num, &tail)` returning `n == 1`:
the literal and `%d` succeed and `%s` then fails (otherwise the item count
is `0` or `2` and `file.parse` rejects the name). -/
def scanManifestNum (l : List Char) : Option Nat :=
  (litManifest l).bind (fun r =>
    (scanD r).bind (fun p =>
      if (scanS p.2).isSome then none else some p.1))

/-- `file.parse(name)`: first `"%d.%s"` with tail `log` or `sst` (any other
tail is an immediate no-match), then `"MANIFEST-%d%s"` expecting exactly one
item scanned.  `none` is "no match", not an error. -/
def fileParse (name : String) : Option (FileType × Nat) :=
  match scanNumTail name.toList with
  | some (n, tail) =>
    if tail = "log" then some (FileType.journal, n)
    else if tail = "sst" then some (FileType.table, n)
    else none
  | none =>
    (scanManifestNum name.toList).map (fun n => (FileType.manifest, n))

/-! ### The storage state -/

/-- Look a file name up in the modelled directory (first binding wins; the
operations below keep at most one binding per name). -/
def dirGet (d : List (String × String)) (nm : String) : Option String :=
  (d.find? (fun p => p.1 = nm)).map (fun p => p.2)

/-- Remove a name from the directory (`os.Remove`). -/
def dirRemove (d : List (String × String)) (nm : String) : List (String × String) :=
  d.filter (fun p => p.1 ≠ nm)

/-- Create or truncate-and-rewrite a file (`os.OpenFile` with
`O_WRONLY|O_CREATE|O_TRUNC` followed by the write). -/
def dirSet (d : List (String × String)) (nm s : String) : List (String × String) :=
  (nm, s) :: dirRemove d nm

/-- `os.Rename src dst`: atomically moves the content of `src` over `dst`;
a missing source leaves the directory unchanged (the error case does not
arise in the embedded calls, which rename a file just written). -/
def dirRename (d : List (String × String)) (src dst : String) : List (String × String) :=
  match dirGet d src with
  | none => d
  | some c => dirSet (dirRemove d src) dst c

/-- One Go `file` object (as returned by `fileStorage.GetFile`): descriptor
fields `num` and `t` plus the object's own `open` flag.  Distinct objects
may carry the same descriptor. -/
structure FileObj where
  num : Nat
  t : FileType
  isOpen : Bool
deriving DecidableEq, Repr

/-- The mutable state of one `fileStorage` plus the directory it manages
and the `file` objects handed out so far (addressed by index). -/
structure StorageState where
  /-- `fileStorage.open`: the open-handle counter, `< 0` once closed. -/
  fsOpen : Int
  /-- whether `fileStorage.slock` is non-nil (the logical `Lock`). -/
  slock : Bool
  /-- whether the OS process lock on the `LOCK` file is held. -/
  flockHeld : Bool
  /-- whether the diagnostic `LOG` file is open. -/
  logOpen : Bool
  /-- the directory: file name to file content. -/
  dir : List (String × String)
  /-- the `file` objects obtained from `GetFile`/`GetFiles`. -/
  files : List FileObj
deriving DecidableEq, Repr

/-- The base name `file.path()` uses, `file.name()` with the panic case
mapped to the empty string (never reached for the kinds the code creates). -/
def nameOf (f : FileObj) : String := (fileName f.t f.num).getD ""

/-- `fileStorage.Lock()`. -/
def lockOp (st : StorageState) : Except Err Unit × StorageState :=
  if st.fsOpen < 0 then (Except.error Err.closed, st)
  else if st.slock then (Except.error Err.locked, st)
  else (Except.ok (), { st with slock := true })

/-- `fileStorage.GetManifest()`: read `CURRENT` whole, demand a final
newline and a name `file.parse` accepts, and return the parsed descriptor. -/
def getManifest (st : StorageState) : Except Err (FileType × Nat) :=
  if st.fsOpen < 0 then Except.error Err.closed
  else
    match dirGet st.dir "CURRENT" with
    | none => Except.error Err.notFound
    | some b =>
      if b.data = [] then Except.error Err.corrupt
      else if b.data.getLast? ≠ some '\n' then Except.error Err.corrupt
      else
        match fileParse (String.mk b.data.dropLast) with
        | some d => Except.ok d
        | none => Except.error Err.corrupt

/-- `fileStorage.SetManifest(f)`: reject non-manifest descriptors, write
`f.name()` plus newline to `CURRENT.<num>` (plain `%d`, no padding), then
rename that file over `CURRENT`. -/
def setManifest (st : StorageState) (t : FileType) (num : Nat) :
    Except Err Unit × StorageState :=
  if st.fsOpen < 0 then (Except.error Err.closed, st)
  else if t ≠ FileType.manifest then (Except.error Err.invalidFile, st)
  else
    (Except.ok (),
      { st with dir := (dirRename
          (dirSet st.dir ("CURRENT." ++ natStr num) ((fileName t num).getD "" ++ "\n"))
          ("CURRENT." ++ natStr num) "CURRENT") })

/-- `fileStorage.Close()`: refuse while handles are open, otherwise set the
`-1` sentinel, close the log file and release the process lock. -/
def closeStorage (st : StorageState) : Except Err Unit × StorageState :=
  if st.fsOpen < 0 then (Except.error Err.closed, st)
  else if st.fsOpen > 0 then (Except.error Err.filesStillOpen, st)
  else (Except.ok (), { st with fsOpen := -1, flockHeld := false, logOpen := false })

/-- `file.Open()` on the file object at index `i`; `ioOk` is the outcome of
the underlying `os.OpenFile` (read-only) call. -/
def fileOpen (st : StorageState) (i : Nat) (ioOk : Bool) :
    Except Err Unit × StorageState :=
  if st.fsOpen < 0 then (Except.error Err.closed, st)
  else
    match st.files[i]? with
    | none => (Except.error Err.badRef, st)
    | some f =>
      if f.isOpen then (Except.error Err.fileOpenErr, st)
      else if !ioOk then (Except.error Err.ioError, st)
      else (Except.ok (),
        { st with files := st.files.set i { f with isOpen := true },
                  fsOpen := st.fsOpen + 1 })

/-- `file.Create()`: like `Open` but the underlying call creates or
truncates the backing file. -/
def fileCreate (st : StorageState) (i : Nat) (ioOk : Bool) :
    Except Err Unit × StorageState :=
  if st.fsOpen < 0 then (Except.error Err.closed, st)
  else
    match st.files[i]? with
    | none => (Except.error Err.badRef, st)
    | some f =>
      if f.isOpen then (Except.error Err.fileOpenErr, st)
      else if !ioOk then (Except.error Err.ioError, st)
      else (Except.ok (),
        { st with files := st.files.set i { f with isOpen := true },
                  fsOpen := st.fsOpen + 1,
                  dir := dirSet st.dir (nameOf f) "" })

/-- `fileWrap.Close()`: a second close of the same handle fails, otherwise
the object's flag is cleared and the storage counter decremented (the Go
method does not consult the storage's closed state). -/
def wrapClose (st : StorageState) (i : Nat) : Except Err Unit × StorageState :=
  match st.files[i]? with
  | none => (Except.error Err.badRef, st)
  | some f =>
    if !f.isOpen then (Except.error Err.closed, st)
    else (Except.ok (),
      { st with files := st.files.set i { f with isOpen := false },
                fsOpen := st.fsOpen - 1 })

/-- `file.Remove()`: refuse while this object's handle is open, otherwise
`os.Remove` the backing file (failing when it is absent), logging and
returning any failure. -/
def fileRemove (st : StorageState) (i : Nat) : Except Err Unit × StorageState :=
  if st.fsOpen < 0 then (Except.error Err.closed, st)
  else
    match st.files[i]? with
    | none => (Except.error Err.badRef, st)
    | some f =>
      if f.isOpen then (Except.error Err.fileOpenErr, st)
      else
        match dirGet st.dir (nameOf f) with
        | some _ => (Except.ok (), { st with dir := dirRemove st.dir (nameOf f) })
        | none => (Except.error Err.ioError, st)

/-- `fileStorage.doLog(t, str)`: the line built by the `itoa`/`append`
sequence of the source — note the source pads the day with width 4. -/
def doLogLine (year month day hour minute sec usec : Nat) (msg : String) : String :=
  String.mk
    (itoa year 4 ++ '/' ::
      (itoa month 2 ++ '/' ::
        (itoa day 4 ++ ' ' ::
          (itoa hour 2 ++ ':' ::
            (itoa minute 2 ++ ':' ::
              (itoa sec 2 ++ '.' ::
                (itoa usec 6 ++ ' ' :: (msg.toList ++ ['\n']))))))))

/-! ### Concrete states used by witnesses and counterexamples -/

/-- used by the C1 witness -/
def stEmpty : StorageState :=
  { fsOpen := 0, slock := false, flockHeld := true, logOpen := true,
    dir := [], files := [] }

/-- C2 counterexample state: an active storage whose `CURRENT` file holds a
journal name. -/
def stJournalCurrent : StorageState :=
  { fsOpen := 0, slock := false, flockHeld := true, logOpen := true,
    dir := [("CURRENT", "000001.log\n")], files := [] }

/-- witness state for the amended C2 -/
def stManifestCurrent : StorageState :=
  { fsOpen := 0, slock := false, flockHeld := true, logOpen := true,
    dir := [("CURRENT", "MANIFEST-000003\n")], files := [] }

/-- witness state for C4: one handle open -/
def stBusy : StorageState :=
  { fsOpen := 1, slock := false, flockHeld := true, logOpen := true,
    dir := [("000005.log", "")],
    files := [{ num := 5, t := FileType.journal, isOpen := true }] }

/-- witness state for C4: no handle open -/
def stIdle : StorageState :=
  { fsOpen := 0, slock := false, flockHeld := true, logOpen := true,
    dir := [], files := [] }

/-- a fresh (not open) file object for journal 5, as `GetFile(5, TypeJournal)`
returns -/
def fJ : FileObj := { num := 5, t := FileType.journal, isOpen := false }

/-- an open file object for journal 5 -/
def fJopen : FileObj := { num := 5, t := FileType.journal, isOpen := true }

/-- C5 counterexample state: two distinct `file` objects (as two `GetFile`
calls produce) for the same descriptor (Journal, 5). -/
def stTwoObjs : StorageState :=
  { fsOpen := 0, slock := false, flockHeld := true, logOpen := true,
    dir := [("000005.log", "")], files := [fJ, fJ] }

/-- witness state for the amended C5: one object, handle open -/
def stOneOpen : StorageState :=
  { fsOpen := 1, slock := false, flockHeld := true, logOpen := true,
    dir := [("000005.log", "")], files := [fJopen] }

/-- C6 counterexample state: object 0 holds a live handle for (Journal, 5),
object 1 is a second, fresh object for the same descriptor. -/
def stAlias : StorageState :=
  { fsOpen := 1, slock := false, flockHeld := true, logOpen := true,
    dir := [("000005.log", "x")], files := [fJopen, fJ] }

/-- witness state for C10: a closed storage -/
def stShut : StorageState :=
  { fsOpen := -1, slock := false, flockHeld := false, logOpen := false,
    dir := [], files := [] }

/-! ### Decimal round-trip lemmas -/

lemma mem_toDigitsRev_lt : ∀ fuel n d, d ∈ toDigitsRev fuel n → d < 10 := by
  intro fuel
  induction fuel with
  | zero => intro n d h; simp [toDigitsRev] at h
  | succ f ih =>
    intro n d h
    rw [toDigitsRev] at h
    by_cases hn : n = 0
    · simp [hn] at h
    · simp only [hn, if_false, List.mem_cons] at h
      rcases h with h | h
      · omega
      · exact ih _ _ h

lemma digitCh_isDigit {d : Nat} (h : d < 10) : isDigitCh (digitCh d) = true := by
  interval_cases d <;> decide

lemma digitCh_toNat {d : Nat} (h : d < 10) : (digitCh d).toNat = 48 + d := by
  interval_cases d <;> decide

lemma digitsVal_concat (l : List Char) (c : Char) :
    digitsVal (l ++ [c]) = digitsVal l * 10 + (c.toNat - 48) := by
  unfold digitsVal
  rw [List.foldl_append]
  rfl

lemma digitsVal_rev_toDigits : ∀ fuel n, n ≤ fuel →
    digitsVal (((toDigitsRev fuel n).map digitCh).reverse) = n := by
  intro fuel
  induction fuel with
  | zero =>
    intro n h
    have : n = 0 := by omega
    subst this
    rfl
  | succ f ih =>
    intro n h
    by_cases hn : n = 0
    · subst hn; rfl
    · rw [toDigitsRev]
      rw [if_neg hn, List.map_cons, List.reverse_cons, digitsVal_concat]
      have hdiv : n / 10 ≤ f := by
        have := Nat.div_lt_self (Nat.pos_of_ne_zero hn) (by omega : 1 < 10)
        omega
      rw [ih (n / 10) hdiv, digitCh_toNat (Nat.mod_lt n (by omega))]
      omega

lemma digitsVal_decDigits (n : Nat) : digitsVal (decDigits n) = n :=
  digitsVal_rev_toDigits n n le_rfl

lemma digitsVal_decRepr (n : Nat) : digitsVal (decRepr n) = n := by
  unfold decRepr
  split
  · rename_i h; subst h; rfl
  · exact digitsVal_decDigits n

lemma decDigits_digit {n : Nat} : ∀ c ∈ decDigits n, isDigitCh c = true := by
  intro c hc
  unfold decDigits at hc
  rw [List.mem_reverse] at hc
  rcases List.mem_map.mp hc with ⟨d, hd, rfl⟩
  exact digitCh_isDigit (mem_toDigitsRev_lt _ _ _ hd)

lemma decRepr_digit {n : Nat} : ∀ c ∈ decRepr n, isDigitCh c = true := by
  intro c hc
  unfold decRepr at hc
  split at hc
  · simp at hc; subst hc; rfl
  · exact decDigits_digit c hc

lemma decRepr_ne_nil (n : Nat) : decRepr n ≠ [] := by
  unfold decRepr
  split
  · simp
  · rename_i hn
    unfold decDigits decLE
    cases n with
    | zero => exact absurd rfl hn
    | succ m => simp [toDigitsRev]

lemma pad6_digit {n : Nat} : ∀ c ∈ pad6 n, isDigitCh c = true := by
  intro c hc
  unfold pad6 at hc
  rw [List.mem_append] at hc
  rcases hc with hc | hc
  · rw [List.eq_of_mem_replicate hc]; rfl
  · exact decRepr_digit c hc

lemma pad6_ne_nil (n : Nat) : pad6 n ≠ [] := by
  unfold pad6
  intro h
  rcases List.append_eq_nil.mp h with ⟨-, h2⟩
  exact decRepr_ne_nil n h2

lemma digitsVal_zeros (k : Nat) : digitsVal (List.replicate k '0') = 0 := by
  induction k with
  | zero => rfl
  | succ k ih =>
    unfold digitsVal at ih ⊢
    simp only [List.replicate_succ, List.foldl_cons]
    simpa using ih

lemma digitsVal_append_of_left_zero (l1 l2 : List Char) (h : digitsVal l1 = 0) :
    digitsVal (l1 ++ l2) = digitsVal l2 := by
  unfold digitsVal at h ⊢
  rw [List.foldl_append, h]

lemma digitsVal_pad6 (n : Nat) : digitsVal (pad6 n) = n := by
  unfold pad6
  rw [digitsVal_append_of_left_zero _ _ (digitsVal_zeros _)]
  exact digitsVal_decRepr n

lemma six_le_pad6_length (n : Nat) : 6 ≤ (pad6 n).length := by
  unfold pad6
  rw [List.length_append, List.length_replicate]
  omega

/-! ### `file.parse` on encoded names -/

lemma isDigitCh_not_sp {c : Char} (h : isDigitCh c = true) : isSp c = false := by
  have h' : 48 ≤ c.toNat ∧ c.toNat ≤ 57 := by simpa [isDigitCh] using h
  simp only [isSp, Bool.or_eq_false_iff, decide_eq_false_iff_not]
  omega

lemma takeWhile_append_all (p : Char → Bool) :
    ∀ l1 l2 : List Char, (∀ c ∈ l1, p c = true) →
      (l1 ++ l2).takeWhile p = l1 ++ l2.takeWhile p := by
  intro l1
  induction l1 with
  | nil => intro l2 _; rfl
  | cons c t ih =>
    intro l2 h
    rw [List.cons_append, List.takeWhile_cons, h c (List.mem_cons_self c t)]
    simp only [if_true]
    rw [ih l2 (fun d hd => h d (List.mem_cons_of_mem c hd)), List.cons_append]

lemma scanD_append (l rest : List Char) (hne : l ≠ [])
    (hdig : ∀ c ∈ l, isDigitCh c = true)
    (hrest : rest.takeWhile isDigitCh = []) :
    scanD (l ++ rest) = some (digitsVal l, rest) := by
  obtain ⟨c, t, rfl⟩ := List.exists_cons_of_ne_nil hne
  have hc : isDigitCh c = true := hdig c (List.mem_cons_self c t)
  have hsp : isSp c = false := isDigitCh_not_sp hc
  have hdw : ((c :: t) ++ rest).dropWhile isSp = (c :: t) ++ rest := by
    rw [List.cons_append, List.dropWhile_cons, hsp]
    simp
  have htw : ((c :: t) ++ rest).takeWhile isDigitCh = c :: t := by
    rw [takeWhile_append_all isDigitCh (c :: t) rest hdig, hrest, List.append_nil]
  simp only [scanD, hdw, htw]
  rw [if_neg (List.cons_ne_nil c t)]
  rw [List.drop_left]

lemma scanD_head_not_digit (c : Char) (r : List Char)
    (h1 : isSp c = false) (h2 : isDigitCh c = false) :
    scanD (c :: r) = none := by
  simp [scanD, List.dropWhile_cons, h1, List.takeWhile_cons, h2]

lemma litManifest_append (r : List Char) :
    litManifest ("MANIFEST-".toList ++ r) = some r := rfl

lemma fileParse_journal (n : Nat) :
    fileParse (String.mk (pad6 n ++ ".log".toList)) = some (FileType.journal, n) := by
  have hsd : scanD (pad6 n ++ ".log".toList) = some (n, ".log".toList) := by
    rw [scanD_append (pad6 n) ".log".toList (pad6_ne_nil n) pad6_digit rfl, digitsVal_pad6]
  unfold fileParse scanNumTail
  rw [show (String.mk (pad6 n ++ ".log".toList)).toList = pad6 n ++ ".log".toList from rfl]
  rw [hsd]
  rfl

lemma fileParse_table (n : Nat) :
    fileParse (String.mk (pad6 n ++ ".sst".toList)) = some (FileType.table, n) := by
  have hsd : scanD (pad6 n ++ ".sst".toList) = some (n, ".sst".toList) := by
    rw [scanD_append (pad6 n) ".sst".toList (pad6_ne_nil n) pad6_digit rfl, digitsVal_pad6]
  unfold fileParse scanNumTail
  rw [show (String.mk (pad6 n ++ ".sst".toList)).toList = pad6 n ++ ".sst".toList from rfl]
  rw [hsd]
  rfl

lemma fileParse_manifest (n : Nat) :
    fileParse (String.mk ("MANIFEST-".toList ++ pad6 n)) = some (FileType.manifest, n) := by
  have h0 : scanD ("MANIFEST-".toList ++ pad6 n) = none := by
    rw [show "MANIFEST-".toList ++ pad6 n = 'M' :: ("ANIFEST-".toList ++ pad6 n) from rfl]
    exact scanD_head_not_digit 'M' _ rfl rfl
  have hsd : scanD (pad6 n) = some (n, []) := by
    have h := scanD_append (pad6 n) [] (pad6_ne_nil n) pad6_digit rfl
    rw [List.append_nil] at h
    rw [h, digitsVal_pad6]
  unfold fileParse scanNumTail scanManifestNum
  rw [show (String.mk ("MANIFEST-".toList ++ pad6 n)).toList
        = "MANIFEST-".toList ++ pad6 n from rfl]
  rw [h0, litManifest_append]
  simp only [Option.some_bind]
  rw [hsd]
  rfl

/-- C3: for every kind in {Journal, Table, Manifest} and every sequence
number (including 0 and numbers wider than 6 digits), decoding the encoded
file name gives back exactly the original descriptor, and the encoded
sequence is zero-padded to at least 6 digits (`pad6`), never truncated. -/
theorem codec_roundtrip : ∀ n : Nat,
    (∃ s, fileName FileType.journal n = some s ∧ fileParse s = some (FileType.journal, n)) ∧
    (∃ s, fileName FileType.table n = some s ∧ fileParse s = some (FileType.table, n)) ∧
    (∃ s, fileName FileType.manifest n = some s ∧ fileParse s = some (FileType.manifest, n)) ∧
    6 ≤ (pad6 n).length := by
  intro n
  exact ⟨⟨_, rfl, fileParse_journal n⟩, ⟨_, rfl, fileParse_table n⟩,
    ⟨_, rfl, fileParse_manifest n⟩, six_le_pad6_length n⟩

/-! ### Inverting `file.parse` -/

/-- C8: asking the codec to name a kind it does not own hits the
`panic("invalid file type")` branch (modelled by `none`) for every sequence
number, while the three owned kinds always produce a name; there is no
recoverable error return in `file.name`'s signature. -/
theorem fileName_other_panics : ∀ n : Nat,
    fileName FileType.other n = none ∧
    (fileName FileType.journal n).isSome = true ∧
    (fileName FileType.table n).isSome = true ∧
    (fileName FileType.manifest n).isSome = true := by
  intro n
  exact ⟨rfl, rfl, rfl, rfl⟩

/-! ### Directory lemmas -/

lemma dirGet_cons (a : String × String) (t : List (String × String)) (k : String) :
    dirGet (a :: t) k = if a.1 = k then some a.2 else dirGet t k := by
  unfold dirGet
  by_cases h : a.1 = k
  · rw [List.find?_cons_of_pos _ (by simp [h]), if_pos h]
    rfl
  · rw [List.find?_cons_of_neg _ (by simp [h]), if_neg h]

lemma dirGet_dirRemove (d : List (String × String)) (k k2 : String) :
    dirGet (dirRemove d k2) k = if k = k2 then none else dirGet d k := by
  induction d with
  | nil => simp [dirGet, dirRemove]
  | cons a t ih =>
    unfold dirRemove at ih ⊢
    rw [List.filter_cons]
    by_cases ha : a.1 = k2
    · by_cases hk : k = k2
      · rw [if_neg (by simp [ha]), ih, if_pos hk, if_pos hk]
      · have hna : a.1 ≠ k := by rw [ha]; exact fun hh => hk hh.symm
        rw [if_neg (by simp [ha]), ih, if_neg hk, dirGet_cons, if_neg hna, if_neg hk]
    · by_cases hk : k = k2
      · have hna : a.1 ≠ k := fun hh => ha (hh.trans hk)
        rw [if_pos (by simp [ha]), dirGet_cons, if_neg hna, ih, if_pos hk, if_pos hk]
      · rw [if_pos (by simp [ha]), dirGet_cons, dirGet_cons, ih, if_neg hk, if_neg hk]

lemma dirGet_dirSet (d : List (String × String)) (k k2 v : String) :
    dirGet (dirSet d k2 v) k = if k = k2 then some v else dirGet d k := by
  unfold dirSet
  rw [dirGet_cons, dirGet_dirRemove]
  by_cases h : k = k2
  · rw [if_pos h.symm, if_pos h]
  · rw [if_neg (fun hh => h hh.symm), if_neg h, if_neg h]

lemma natStr_length_pos (n : Nat) : 0 < (natStr n).length := by
  have h := decRepr_ne_nil n
  unfold natStr
  cases hd : decRepr n with
  | nil => exact absurd hd h
  | cons c t => simp [String.length]

lemma current_tmp_ne (n : Nat) : ("CURRENT." ++ natStr n) ≠ "CURRENT" := by
  intro h
  have hlen := congrArg String.length h
  rw [String.length_append] at hlen
  have h1 := natStr_length_pos n
  have h2 : ("CURRENT." : String).length = 8 := rfl
  have h3 : ("CURRENT" : String).length = 7 := rfl
  omega

/-- C1: on an active storage, `SetManifest` with a non-manifest descriptor
returns `ErrInvalidFile` and changes nothing; with a manifest descriptor it
writes the encoded name plus newline to the temporary `CURRENT.<seq>` file
and renames it over `CURRENT`, so afterwards the temporary file is gone and
`CURRENT` holds exactly the encoded name followed by a newline. -/
theorem setManifest_publishes (st : StorageState) (h : 0 ≤ st.fsOpen) :
    (∀ k n, k ≠ FileType.manifest → setManifest st k n = (Except.error Err.invalidFile, st)) ∧
    (∀ n, ∃ st2, setManifest st FileType.manifest n = (Except.ok (), st2) ∧
      dirGet st2.dir ("CURRENT." ++ natStr n) = none ∧
      dirGet st2.dir "CURRENT" = some (String.mk ("MANIFEST-".toList ++ pad6 n) ++ "\n") ∧
      st2.fsOpen = st.fsOpen ∧ st2.files = st.files ∧ st2.slock = st.slock) := by
  have hno : ¬ st.fsOpen < 0 := by omega
  constructor
  · intro k n hk
    unfold setManifest
    rw [if_neg hno, if_pos hk]
  · intro n
    refine ⟨{ st with dir := (dirRename
        (dirSet st.dir ("CURRENT." ++ natStr n) ((fileName FileType.manifest n).getD "" ++ "\n"))
        ("CURRENT." ++ natStr n) "CURRENT") }, ?_, ?_, ?_, rfl, rfl, rfl⟩
    · unfold setManifest
      rw [if_neg hno, if_neg (by simp)]
    · show dirGet (dirRename _ _ _) _ = none
      unfold dirRename
      rw [dirGet_dirSet, if_pos rfl]
      show dirGet (dirSet _ "CURRENT" _) _ = none
      rw [dirGet_dirSet, if_neg (current_tmp_ne n), dirGet_dirRemove, if_pos rfl]
    · show dirGet (dirRename _ _ _) _ = some _
      unfold dirRename
      rw [dirGet_dirSet, if_pos rfl]
      show dirGet (dirSet _ "CURRENT" _) _ = some _
      rw [dirGet_dirSet, if_pos rfl]
      rfl

/-- Witness for C1 at a concrete active storage: a journal descriptor is
rejected unchanged, and publishing manifest 7 leaves no `CURRENT.7` file
and `CURRENT` containing `MANIFEST-000007` plus newline. -/
theorem setManifest_publishes_witness :
    setManifest stEmpty FileType.journal 7 = (Except.error Err.invalidFile, stEmpty) ∧
    ∃ st2, setManifest stEmpty FileType.manifest 7 = (Except.ok (), st2) ∧
      dirGet st2.dir ("CURRENT." ++ natStr 7) = none ∧
      dirGet st2.dir "CURRENT" = some (String.mk ("MANIFEST-".toList ++ pad6 7) ++ "\n") ∧
      st2.fsOpen = stEmpty.fsOpen ∧ st2.files = stEmpty.files ∧ st2.slock = stEmpty.slock :=
  ⟨(setManifest_publishes stEmpty (by decide)).1 FileType.journal 7 (by decide),
   (setManifest_publishes stEmpty (by decide)).2 7⟩

/-- C2 counterexample: `GetManifest` never checks that the parsed name is a
manifest name — a `CURRENT` file containing `000001.log` plus newline is
accepted and returns the journal descriptor, where the claim demands a
Corrupt error. -/
theorem getManifest_accepts_journal_name :
    getManifest stJournalCurrent = Except.ok (FileType.journal, 1) := rfl

/-- C2 as amended: on an active storage whose `CURRENT` file exists with
content `b`, `GetManifest` succeeds exactly when `b` is non-empty, ends in
a newline, and the text before that final newline is accepted by
`file.parse` — a name of any recognized kind, not only Manifest; every
other content yields the `invalid CURRENT file` (Corrupt) error. -/
theorem getManifest_weak_validation (st : StorageState) (h : 0 ≤ st.fsOpen)
    (b : String) (hb : dirGet st.dir "CURRENT" = some b) :
    (∀ d, getManifest st = Except.ok d ↔
      (b.data ≠ [] ∧ b.data.getLast? = some '\n' ∧
        fileParse (String.mk b.data.dropLast) = some d)) ∧
    ((b.data = [] ∨ b.data.getLast? ≠ some '\n' ∨
        fileParse (String.mk b.data.dropLast) = none) →
      getManifest st = Except.error Err.corrupt) := by
  have hno : ¬ st.fsOpen < 0 := by omega
  unfold getManifest
  rw [if_neg hno, hb]
  by_cases h1 : b.data = []
  · simp [h1]
  · by_cases h2 : b.data.getLast? = some '\n'
    · cases hp : fileParse (String.mk b.data.dropLast) with
      | none => simp [h1, h2, hp]
      | some d' => simp [h1, h2, hp]
    · simp [h1, h2]

/-- Witness for the amended C2 at a concrete storage whose `CURRENT` holds
a well-formed manifest name. -/
theorem getManifest_weak_validation_witness :
    getManifest stManifestCurrent = Except.ok (FileType.manifest, 3) :=
  ((getManifest_weak_validation stManifestCurrent (by decide) "MANIFEST-000003\n"
      (by decide)).1 (FileType.manifest, 3)).mpr (by decide)

/-! ### Close and the closed sentinel -/

lemma closed_ops (st : StorageState) (h : st.fsOpen < 0) :
    closeStorage st = (Except.error Err.closed, st) ∧
    lockOp st = (Except.error Err.closed, st) ∧
    getManifest st = Except.error Err.closed ∧
    (∀ k n, setManifest st k n = (Except.error Err.closed, st)) ∧
    (∀ i io, fileOpen st i io = (Except.error Err.closed, st)) ∧
    (∀ i io, fileCreate st i io = (Except.error Err.closed, st)) ∧
    (∀ i, fileRemove st i = (Except.error Err.closed, st)) := by
  refine ⟨?_, ?_, ?_, ?_, ?_, ?_, ?_⟩
  · unfold closeStorage; rw [if_pos h]
  · unfold lockOp; rw [if_pos h]
  · unfold getManifest; rw [if_pos h]
  · intro k n; unfold setManifest; rw [if_pos h]
  · intro i io; unfold fileOpen; rw [if_pos h]
  · intro i io; unfold fileCreate; rw [if_pos h]
  · intro i; unfold fileRemove; rw [if_pos h]

/-- C4: `Close` with open handles fails with the files-still-open error and
leaves the storage untouched (hence active); with no open handles it sets
the `-1` sentinel, releases the process lock and closes the log, after which
`Close` and every other state-checking operation fail with `ErrClosed`. -/
theorem close_spec (st : StorageState) (_h0 : 0 ≤ st.fsOpen) :
    (0 < st.fsOpen → closeStorage st = (Except.error Err.filesStillOpen, st)) ∧
    (st.fsOpen = 0 → ∃ st2,
      closeStorage st = (Except.ok (), st2) ∧
      st2.fsOpen = -1 ∧ st2.flockHeld = false ∧ st2.logOpen = false ∧
      st2.dir = st.dir ∧ st2.files = st.files ∧
      closeStorage st2 = (Except.error Err.closed, st2) ∧
      lockOp st2 = (Except.error Err.closed, st2) ∧
      getManifest st2 = Except.error Err.closed ∧
      (∀ k n, setManifest st2 k n = (Except.error Err.closed, st2)) ∧
      (∀ i io, fileOpen st2 i io = (Except.error Err.closed, st2)) ∧
      (∀ i io, fileCreate st2 i io = (Except.error Err.closed, st2)) ∧
      (∀ i, fileRemove st2 i = (Except.error Err.closed, st2))) := by
  constructor
  · intro hpos
    unfold closeStorage
    rw [if_neg (by omega), if_pos hpos]
  · intro hz
    refine ⟨{ st with fsOpen := -1, flockHeld := false, logOpen := false },
      ?_, rfl, rfl, rfl, rfl, rfl, closed_ops _ (by norm_num)⟩
    unfold closeStorage
    rw [if_neg (by omega), if_neg (by omega)]

/-- Witness for C4 at concrete storages: refusal with an open handle, and a
successful close followed by a failing second close. -/
theorem close_spec_witness :
    closeStorage stBusy = (Except.error Err.filesStillOpen, stBusy) ∧
    ∃ st2, closeStorage stIdle = (Except.ok (), st2) ∧
      closeStorage st2 = (Except.error Err.closed, st2) := by
  refine ⟨(close_spec stBusy (by decide)).1 (by decide), ?_⟩
  obtain ⟨st2, h1, -, -, -, -, -, h2, -, -, -, -, -, -⟩ :=
    (close_spec stIdle (by decide)).2 (by decide)
  exact ⟨st2, h1, h2⟩

/-! ### Per-object open tracking -/

/-- C5 counterexample: the open flag lives on each `file` object, so with
two objects for the same descriptor (Journal, 5), opening through the first
succeeds and — while that handle is still live — opening through the second
also succeeds, instead of failing with `AlreadyOpen` as the claim states. -/
theorem open_same_descriptor_twice :
    stTwoObjs.files = [fJ, fJ] ∧ fJ.t = FileType.journal ∧ fJ.num = 5 ∧
    (fileOpen stTwoObjs 0 true).1 = Except.ok () ∧
    ((fileOpen stTwoObjs 0 true).2.files[0]?).map FileObj.isOpen = some true ∧
    (fileOpen (fileOpen stTwoObjs 0 true).2 1 true).1 = Except.ok () :=
  ⟨rfl, rfl, rfl, rfl, rfl, rfl⟩

/-- C5 as amended: the at-most-one-handle invariant holds per `file`
object, not per descriptor: a second `Open` or `Create` through the same
object fails with `errFileOpen` (AlreadyOpen) and changes nothing, and
after closing that object's handle a re-open through it succeeds. -/
theorem fileOpen_per_object (st : StorageState) (i : Nat) (f : FileObj)
    (hf : st.files[i]? = some f) (hopen : f.isOpen = true) (hcnt : 1 ≤ st.fsOpen) :
    (∀ io, fileOpen st i io = (Except.error Err.fileOpenErr, st)) ∧
    (∀ io, fileCreate st i io = (Except.error Err.fileOpenErr, st)) ∧
    (∃ st2, wrapClose st i = (Except.ok (), st2) ∧
      st2.files[i]? = some { f with isOpen := false } ∧
      ∃ st3, fileOpen st2 i true = (Except.ok (), st3) ∧
        st3.files[i]? = some { f with isOpen := true }) := by
  have hno : ¬ st.fsOpen < 0 := by omega
  have hlt : i < st.files.length := (List.getElem?_eq_some.mp hf).1
  refine ⟨?_, ?_, ?_⟩
  · intro io
    unfold fileOpen
    rw [if_neg hno]
    simp only [hf, hopen, if_true]
  · intro io
    unfold fileCreate
    rw [if_neg hno]
    simp only [hf, hopen, if_true]
  · refine ⟨{ st with files := st.files.set i { f with isOpen := false }, fsOpen := st.fsOpen - 1 }, ?_, ?_, ?_⟩
    · unfold wrapClose
      simp only [hf, hopen]
      rfl
    · show (st.files.set i { f with isOpen := false })[i]? = _
      rw [List.getElem?_set_self hlt]
    · have hset : (st.files.set i { f with isOpen := false })[i]?
          = some { f with isOpen := false } := List.getElem?_set_self hlt
      refine ⟨{ st with files := (st.files.set i { f with isOpen := false }).set i { f with isOpen := true }, fsOpen := st.fsOpen - 1 + 1 }, ?_, ?_⟩
      · unfold fileOpen
        rw [if_neg (by simp; omega)]
        simp only [hset]
        rfl
      · show ((st.files.set i { f with isOpen := false }).set i
            { f with isOpen := true })[i]? = _
        rw [List.getElem?_set_self (by simpa using hlt)]

/-- Witness for the amended C5 at a concrete storage with one open
handle. -/
theorem fileOpen_per_object_witness :
    fileOpen stOneOpen 0 true = (Except.error Err.fileOpenErr, stOneOpen) :=
  (fileOpen_per_object stOneOpen 0 fJopen rfl rfl (by decide)).1 true

/-! ### Remove -/

/-- C6 counterexample: the still-open check consults only the removing
object's own flag, so while object 0 holds a live handle for (Journal, 5),
`Remove` performed through object 1 — the same descriptor — succeeds and
deletes the backing file, instead of failing with `StillOpen` as the claim
states. -/
theorem remove_ignores_other_objects :
    stAlias.files = [fJopen, fJ] ∧ fJopen.isOpen = true ∧
    fJopen.num = fJ.num ∧ fJopen.t = fJ.t ∧
    (fileRemove stAlias 1).1 = Except.ok () ∧
    dirGet (fileRemove stAlias 1).2.dir "000005.log" = none :=
  ⟨rfl, rfl, rfl, rfl, rfl, rfl⟩

/-- C6 as amended: `Remove` through a file object whose own handle is open
fails with `errFileOpen` (StillOpen) and deletes nothing; a live handle held
through a different object for the same descriptor does not prevent
deletion.  After the storage is closed it fails with `ErrClosed`; otherwise
it deletes the backing file, and a deletion failure (missing file) is
logged and returned. -/
theorem fileRemove_spec (st : StorageState) (i : Nat) (f : FileObj)
    (hf : st.files[i]? = some f) :
    (st.fsOpen < 0 → fileRemove st i = (Except.error Err.closed, st)) ∧
    (0 ≤ st.fsOpen → f.isOpen = true →
      fileRemove st i = (Except.error Err.fileOpenErr, st)) ∧
    (0 ≤ st.fsOpen → f.isOpen = false →
      (∀ c, dirGet st.dir (nameOf f) = some c →
        fileRemove st i = (Except.ok (), { st with dir := dirRemove st.dir (nameOf f) })) ∧
      (dirGet st.dir (nameOf f) = none →
        fileRemove st i = (Except.error Err.ioError, st))) := by
  refine ⟨?_, ?_, ?_⟩
  · intro h
    unfold fileRemove
    rw [if_pos h]
  · intro h hopen
    unfold fileRemove
    rw [if_neg (by omega)]
    simp only [hf, hopen, if_true]
  · intro h hopen
    constructor
    · intro c hc
      unfold fileRemove
      rw [if_neg (by omega)]
      simp only [hf, hopen, hc, if_false]
      rfl
    · intro hc
      unfold fileRemove
      rw [if_neg (by omega)]
      simp only [hf, hopen, hc, if_false]
      rfl

/-- Witness for the amended C6: removing through the object that itself
holds the open handle is refused with the still-open error. -/
theorem fileRemove_spec_witness :
    fileRemove stAlias 0 = (Except.error Err.fileOpenErr, stAlias) :=
  (fileRemove_spec stAlias 0 fJopen rfl).2.1 (by decide) rfl

/-! ### Atomicity of Open and Create -/

/-- C10: every error return of `file.Open` and `file.Create` — storage
closed, object already open, or underlying I/O failure — leaves the state
(in particular the object's open flag and the storage's handle count)
exactly as before the call; the flag is set and the count incremented only
on the success path. -/
theorem openCreate_atomic (st : StorageState) (i : Nat) (io : Bool) :
    (∀ e, (fileOpen st i io).1 = Except.error e → (fileOpen st i io).2 = st) ∧
    (∀ e, (fileCreate st i io).1 = Except.error e → (fileCreate st i io).2 = st) ∧
    ((fileOpen st i io).1 = Except.ok () → ∃ f, st.files[i]? = some f ∧
      f.isOpen = false ∧ 0 ≤ st.fsOpen ∧ io = true ∧
      (fileOpen st i io).2 = { st with files := st.files.set i { f with isOpen := true }, fsOpen := st.fsOpen + 1 }) ∧
    ((fileCreate st i io).1 = Except.ok () → ∃ f, st.files[i]? = some f ∧
      f.isOpen = false ∧ 0 ≤ st.fsOpen ∧ io = true ∧
      (fileCreate st i io).2 = { st with files := st.files.set i { f with isOpen := true }, fsOpen := st.fsOpen + 1, dir := dirSet st.dir (nameOf f) "" }) := by
  unfold fileOpen fileCreate
  by_cases hcl : st.fsOpen < 0
  · simp [if_pos hcl]
  · simp only [if_neg hcl]
    cases hfi : st.files[i]? with
    | none => simp
    | some f =>
      simp only []
      by_cases hfo : f.isOpen = true
      · simp [hfo]
      · have hfo' : f.isOpen = false := by
          cases hb : f.isOpen
          · rfl
          · exact absurd hb hfo
        simp only [hfo', if_false]
        cases io with
        | false => simp
        | true =>
          simp only [Bool.not_true, if_false]
          refine ⟨?_, ?_, ?_, ?_⟩
          · intro e h; exact absurd h (by simp)
          · intro e h; exact absurd h (by simp)
          · intro _
            exact ⟨f, rfl, hfo', by omega, trivial, rfl⟩
          · intro _
            exact ⟨f, rfl, hfo', by omega, trivial, rfl⟩

/-- Witness for C10: on a concrete closed storage both calls error and
return the state unchanged. -/
theorem openCreate_atomic_witness :
    (fileOpen stShut 0 true).2 = stShut ∧ (fileCreate stShut 0 true).2 = stShut :=
  ⟨(openCreate_atomic stShut 0 true).1 Err.closed rfl,
   (openCreate_atomic stShut 0 true).2.1 Err.closed rfl⟩

/-! ### The diagnostic log line -/

/-- C9: `doLog` builds the timestamp with the day padded to width 4 — the
source line `itoa(fs.buf, day, 4)` — so the emitted line is
`YYYY/MM/DDDD HH:MM:SS.ffffff <message>` plus newline, which differs from
the claimed `YYYY/MM/DD` shape with a 2-digit day (all the other fields do
match the claim: month, hour, minute, second at width 2, microseconds at
width 6). -/
theorem doLogLine_day_width :
    doLogLine 2026 10 7 5 4 3 12 "compaction" =
      "2026/10/0007 05:04:03.000012 compaction\n" ∧
    doLogLine 2026 10 7 5 4 3 12 "compaction" ≠
      "2026/10/07 05:04:03.000012 compaction\n" ∧
    itoa 7 4 = ['0', '0', '0', '7'] ∧ itoa 7 2 = ['0', '7'] := by
  refine ⟨rfl, ?_, rfl, rfl⟩
  decide
